import Mathlib

/-!
Shallow embedding of the trakt-sync repository (sync.mjs, sync-auto.mjs,
sync-github.js): the schema normalizer, the authenticated request/retry
protocol, the token refresher, the run orchestration with exit codes, and
the bounded result logger.

JavaScript objects are embedded as structures; absent fields are `Option`;
JS string truthiness (`!x`, `x || y`) is modelled explicitly so that the
empty string behaves as in the source.
-/

/-- External identifiers carried by a movie or show (`ids.imdb`, `ids.tmdb`). -/
structure Ids where
  imdb : Option String
  tmdb : Option Nat
deriving DecidableEq, Repr

/-- Source episode: `{number, last_watched_at?}`. -/
structure SEpisode where
  number : Nat
  last_watched_at : Option String
deriving DecidableEq, Repr

/-- Source season: `{number, episodes?}`. -/
structure SSeason where
  number : Nat
  episodes : Option (List SEpisode)
deriving DecidableEq, Repr

/-- Source show or anime entry: `{last_watched_at?, show:{ids}, seasons?}`.
`show_ids` embeds the nested `entry.show.ids` object (`show` is a Lean keyword). -/
structure SShow where
  last_watched_at : Option String
  show_ids : Ids
  seasons : Option (List SSeason)
deriving DecidableEq, Repr

/-- Source movie entry: `{last_watched_at?, movie:{ids}}`.
`movie_ids` embeds the nested `entry.movie.ids` object. -/
structure SMovie where
  last_watched_at : Option String
  movie_ids : Ids
deriving DecidableEq, Repr

/-- The watched snapshot returned by the source service: optional
`movies`, `shows`, `anime` collections. -/
structure Snapshot where
  movies : Option (List SMovie)
  shows : Option (List SShow)
  anime : Option (List SShow)
deriving DecidableEq, Repr

/-- Destination episode: `{number, watched_at}`. The value assigned by the
source code is a JS expression over optional fields, hence `Option String`. -/
structure TEpisode where
  number : Nat
  watched_at : Option String
deriving DecidableEq, Repr

/-- Destination season: `{number, episodes}`. -/
structure TSeason where
  number : Nat
  episodes : List TEpisode
deriving DecidableEq, Repr

/-- Destination show: `{watched_at, ids, seasons}`. -/
structure TShow where
  watched_at : Option String
  ids : Ids
  seasons : List TSeason
deriving DecidableEq, Repr

/-- Destination movie: `{watched_at, ids}`. -/
structure TMovie where
  watched_at : Option String
  ids : Ids
deriving DecidableEq, Repr

/-- The normalized payload `traktObject = {movies: [], shows: []}`. -/
structure TraktObject where
  movies : List TMovie
  shows : List TShow
deriving DecidableEq, Repr

/-- JS truthiness of an optional string: `undefined`/`null` and `""` are
falsy, any other string is truthy. -/
def truthy : Option String → Bool
  | none => false
  | some s => s != ""

/-- JS `a || b` on optional strings: `b` when `a` is falsy, else `a`. -/
def jsOr (a b : Option String) : Option String :=
  if truthy a then a else b

namespace ManualSync

/-- Movie processing, sync.mjs lines 136-146 (textually identical in
sync-auto.mjs lines 139-151 and sync-github.js lines 108-120): skip entries
with a falsy `last_watched_at`, otherwise push `{watched_at, ids:{imdb,tmdb}}`
in source order. -/
def processMovies (movies : Option (List SMovie)) : List TMovie :=
  (movies.getD []).filterMap fun movie =>
    if truthy movie.last_watched_at then
      some ⟨movie.last_watched_at, ⟨movie.movie_ids.imdb, movie.movie_ids.tmdb⟩⟩
    else none

/-- Episode mapping inside a season, sync.mjs line 153-156:
`{number: episode.number, watched_at: episode.last_watched_at || show.last_watched_at}`. -/
def mapEpisode (fallback : Option String) (episode : SEpisode) : TEpisode :=
  ⟨episode.number, jsOr episode.last_watched_at fallback⟩

/-- Season mapping, sync.mjs lines 151-156: map the episodes (missing episode
list behaves as `[]` via the optional chain), then `.filter(ep => ep)` — every
mapped episode is an object, hence truthy. -/
def mapSeason (fallback : Option String) (season : SSeason) : TSeason :=
  ⟨season.number,
   ((season.episodes.getD []).map (mapEpisode fallback)).filter fun _ => true⟩

/-- Season folding, sync.mjs lines 151-157: map each season, then drop seasons
whose episode collection is empty; a missing `seasons` collection yields `[]`. -/
def foldSeasons (fallback : Option String) (seasons : Option (List SSeason)) :
    List TSeason :=
  ((seasons.getD []).map (mapSeason fallback)).filter fun season =>
    season.episodes.length > 0

/-- Show processing, sync.mjs lines 149-169: skip when `last_watched_at` is
falsy; fold the seasons; push `{watched_at, ids, seasons}` only when at least
one season survives. -/
def processShowEntry (entry : SShow) : Option TShow :=
  if truthy entry.last_watched_at then
    let seasons := foldSeasons entry.last_watched_at entry.seasons
    if seasons.length > 0 then
      some ⟨entry.last_watched_at, ⟨entry.show_ids.imdb, entry.show_ids.tmdb⟩, seasons⟩
    else none
  else none

/-- Anime processing, sync.mjs lines 171-192: textually the same folding as
`processShowEntry`, with the anime entry's own timestamp as fallback, appended
to the same `shows` collection. -/
def processAnimeEntry (entry : SShow) : Option TShow :=
  if truthy entry.last_watched_at then
    let seasons := foldSeasons entry.last_watched_at entry.seasons
    if seasons.length > 0 then
      some ⟨entry.last_watched_at, ⟨entry.show_ids.imdb, entry.show_ids.tmdb⟩, seasons⟩
    else none
  else none

/-- The full normalizer of sync.mjs lines 131-192: movies, then shows, then
anime appended to the same `shows` array, in source enumeration order. -/
def normalize (w : Snapshot) : TraktObject :=
  ⟨processMovies w.movies,
   (w.shows.getD []).filterMap processShowEntry ++
     (w.anime.getD []).filterMap processAnimeEntry⟩

end ManualSync

namespace AutomatedTraktSync

/-- Anime season folding in sync-auto.mjs lines 182-190. The inner arrow
function shadows `season`: each output season's `episodes` is
`anime.seasons.flatMap(...)` over ALL seasons, not the episodes of the season
being mapped; the `.filter(ep => ep)` step is also absent here. -/
def animeSeasons (entry : SShow) : List TSeason :=
  match entry.seasons with
  | none => []
  | some ss =>
    (ss.map fun season =>
      (⟨season.number,
        (entry.seasons.getD []).flatMap fun season2 =>
          (season2.episodes.getD []).map fun episode =>
            (⟨episode.number, jsOr episode.last_watched_at entry.last_watched_at⟩ :
              TEpisode)⟩ : TSeason)).filter fun season =>
      season.episodes.length > 0

/-- Anime processing, sync-auto.mjs lines 179-203: skip falsy timestamps, use
the flatMap-folded seasons, push when at least one season survives. -/
def processAnimeEntry (entry : SShow) : Option TShow :=
  if truthy entry.last_watched_at then
    let seasons := animeSeasons entry
    if seasons.length > 0 then
      some ⟨entry.last_watched_at, ⟨entry.show_ids.imdb, entry.show_ids.tmdb⟩, seasons⟩
    else none
  else none

/-- The full normalizer of sync-auto.mjs lines 134-203: movie and show
processing are textually identical to sync.mjs (lines 139-176), only the
anime branch differs. -/
def normalize (w : Snapshot) : TraktObject :=
  ⟨ManualSync.processMovies w.movies,
   (w.shows.getD []).filterMap ManualSync.processShowEntry ++
     (w.anime.getD []).filterMap processAnimeEntry⟩

end AutomatedTraktSync

/-- An HTTP response, reduced to its status code. -/
structure Resp where
  status : Nat
deriving DecidableEq, Repr

/-- JS `response.ok`: status in the 2xx range (200-299). -/
def Resp.ok (r : Resp) : Bool := decide (200 ≤ r.status) && decide (r.status < 300)

/-- Trace of one `traktRequest` call: how many token refreshes were attempted,
how many times the request was fetched, and the outcome (`error` when the
refresh threw). -/
structure ReqTrace where
  refreshAttempts : Nat
  fetchCalls : Nat
  result : Except Unit Resp

/-- `traktRequest`, sync.mjs lines 64-83 (textually identical in
sync-auto.mjs lines 66-86 and sync-github.js lines 43-62): fetch once; on a
401 refresh the token (propagating a refresh failure) and re-issue the same
request once, returning whatever the retry yields — there is no second check
and no second refresh. `first`/`second` are the environment's responses to
the first and retried fetch; `refreshOk` is whether the token endpoint would
accept the refresh. -/
def traktRequest (refreshOk : Bool) (first second : Resp) : ReqTrace :=
  if first.status = 401 then
    if refreshOk then ⟨1, 2, Except.ok second⟩
    else ⟨1, 1, Except.error ()⟩
  else ⟨0, 1, Except.ok first⟩

/-- The destination token object stored in the config. -/
structure TraktTokens where
  access_token : String
  refresh_token : String
deriving DecidableEq, Repr

/-- Credential store (the fields the refresher touches or must preserve). -/
structure Config where
  trakt_client_id : String
  trakt_client_secret : String
  trakt_tokens : TraktTokens
deriving DecidableEq, Repr

/-- Trace of one `refreshTraktToken` call: how many POSTs were issued to the
token endpoint, and either the updated config paired with whether it was
persisted to disk, or an error (the thrown `Failed to refresh Trakt token`). -/
structure RefreshTrace where
  tokenEndpointCalls : Nat
  result : Except Unit (Config × Bool)

/-- `ManualSync.refreshTraktToken`, sync.mjs lines 85-108 (textually identical
in sync-auto.mjs lines 88-111): one POST to the token endpoint; on `ok` the
whole `trakt_tokens` object is replaced by the response body and the config is
saved; otherwise an error is thrown. `resp` is the endpoint's HTTP response
and `body` its parsed JSON body. -/
def ManualSync.refreshTraktToken (cfg : Config) (resp : Resp) (body : TraktTokens) :
    RefreshTrace :=
  if resp.ok then
    ⟨1, Except.ok (⟨cfg.trakt_client_id, cfg.trakt_client_secret, body⟩, true)⟩
  else ⟨1, Except.error ()⟩

/-- `GitHubSync.refreshTraktToken`, sync-github.js lines 64-89: same exchange,
but the new tokens are only kept in memory — the code cannot persist them in
GitHub Actions and instead prints a warning asking the operator to update the
secret. -/
def GitHubSync.refreshTraktToken (cfg : Config) (resp : Resp) (body : TraktTokens) :
    RefreshTrace :=
  if resp.ok then
    ⟨1, Except.ok (⟨cfg.trakt_client_id, cfg.trakt_client_secret, body⟩, false)⟩
  else ⟨1, Except.error ()⟩

/-- How a run ended, as reported to the operator. -/
inductive SyncOutcome
  | nothingToSync
  | success
  | submitFailed
  | fatal
deriving DecidableEq, Repr

/-- Trace of one whole run: the process exit code, the number of POSTs issued
to the history endpoint, the reported outcome, and the normalized payload
(empty until the normalizer ran). -/
structure RunTrace where
  exitCode : Nat
  historyCalls : Nat
  outcome : SyncOutcome
  payload : TraktObject
deriving DecidableEq, Repr

/-- The network environment of a run: responses to the settings probe (first
try and retry), whether each potential token refresh would succeed, and
responses to the history submission (first try and retry). -/
structure NetEnv where
  settings1 : Resp
  settings2 : Resp
  refreshOk1 : Bool
  history1 : Resp
  history2 : Resp
  refreshOk2 : Bool
deriving DecidableEq, Repr

/-- `ManualSync.sync`, sync.mjs lines 120-211: exit 1 when the config is
missing; exit 1 when the Simkl fetch throws; probe the settings endpoint
(a refresh failure or a non-ok probe throws, caught at line 207 → exit 1);
normalize; POST the payload unconditionally; on a non-ok submit response only
log the failure (lines 204-206) and fall through — the process still exits 0.
`configOk`/`fetchOk` say whether config loading and the Simkl fetch succeed. -/
def ManualSync.sync (configOk fetchOk : Bool) (w : Snapshot) (env : NetEnv) :
    RunTrace :=
  if !configOk then ⟨1, 0, SyncOutcome.fatal, ⟨[], []⟩⟩
  else if !fetchOk then ⟨1, 0, SyncOutcome.fatal, ⟨[], []⟩⟩
  else
    match (traktRequest env.refreshOk1 env.settings1 env.settings2).result with
    | Except.error _ => ⟨1, 0, SyncOutcome.fatal, ⟨[], []⟩⟩
    | Except.ok probe =>
      if !probe.ok then ⟨1, 0, SyncOutcome.fatal, ⟨[], []⟩⟩
      else
        let payload := ManualSync.normalize w
        let t := traktRequest env.refreshOk2 env.history1 env.history2
        match t.result with
        | Except.error _ => ⟨1, t.fetchCalls, SyncOutcome.fatal, payload⟩
        | Except.ok r =>
          if r.ok then ⟨0, t.fetchCalls, SyncOutcome.success, payload⟩
          else ⟨0, t.fetchCalls, SyncOutcome.submitFailed, payload⟩

/-- The normalizer of sync-github.js lines 103-145: movie and show processing
are textually identical to sync.mjs lines 136-169; there is no anime block. -/
def GitHubSync.normalize (w : Snapshot) : TraktObject :=
  ⟨ManualSync.processMovies w.movies,
   (w.shows.getD []).filterMap ManualSync.processShowEntry⟩

/-- `GitHubSync.sync`, sync-github.js lines 91-169 (configuration comes from
environment variables, so there is no missing-config exit path): a fetch
failure throws, caught at line 165 → exit 1; probe the settings endpoint (a
refresh failure or a non-ok probe throws → exit 1); normalize; if the payload
has no movies and no shows, return with exit 0 and zero history calls ("No
new items to sync", lines 149-152); otherwise POST the payload: on ok exit 0,
on non-ok throw `Sync failed` → caught → exit 1. -/
def GitHubSync.sync (fetchOk : Bool) (w : Snapshot) (env : NetEnv) : RunTrace :=
  if !fetchOk then ⟨1, 0, SyncOutcome.fatal, ⟨[], []⟩⟩
  else
    match (traktRequest env.refreshOk1 env.settings1 env.settings2).result with
    | Except.error _ => ⟨1, 0, SyncOutcome.fatal, ⟨[], []⟩⟩
    | Except.ok probe =>
      if !probe.ok then ⟨1, 0, SyncOutcome.fatal, ⟨[], []⟩⟩
      else
        let payload := GitHubSync.normalize w
        if payload.movies.length = 0 && payload.shows.length = 0 then
          ⟨0, 0, SyncOutcome.nothingToSync, payload⟩
        else
          let t := traktRequest env.refreshOk2 env.history1 env.history2
          match t.result with
          | Except.error _ => ⟨1, t.fetchCalls, SyncOutcome.fatal, payload⟩
          | Except.ok r =>
            if r.ok then ⟨0, t.fetchCalls, SyncOutcome.success, payload⟩
            else ⟨1, t.fetchCalls, SyncOutcome.submitFailed, payload⟩

/-- A sync-history log entry (timestamp elided; `status` plus optional error). -/
structure LogEntry where
  status : String
  error : Option String
deriving DecidableEq, Repr

/-- The append-and-truncate core of `logSyncResult`, sync-auto.mjs lines
267-271: `logs.push(entry)`, then keep only the last 100 entries. -/
def boundedAppend (logs : List LogEntry) (entry : LogEntry) : List LogEntry :=
  let pushed := logs ++ [entry]
  if pushed.length > 100 then pushed.drop (pushed.length - 100) else pushed

/-- `AutomatedTraktSync.logSyncResult`, sync-auto.mjs lines 255-277, as a
state transformer on the log file's content. A missing file (`none`) or a
failed read/parse (`readOk = false`) starts from `[]` (inner catch, line
263-265); the appended-and-truncated list is written back when the write
succeeds, else the file is left as it was (outer catch swallows, line
274-276). The function is total: no failure escapes it. -/
def AutomatedTraktSync.logSyncResult (file : Option (List LogEntry))
    (readOk writeOk : Bool) (entry : LogEntry) : Option (List LogEntry) :=
  let logs :=
    match file, readOk with
    | some l, true => l
    | _, _ => []
  let written := boundedAppend logs entry
  if writeOk then some written else file

/-- `AutomatedTraktSync.autoSync`, sync-auto.mjs lines 123-253: exit 1 on a
missing config (no log written — the throw happens before the try block's
logging only in the config case); on a fetch failure, a refresh failure, or a
failed settings probe the outer catch logs an error entry and exits 1; if the
normalized payload has no movies and no shows, return with exit 0 and zero
history calls ("No new items to sync", lines 207-210, which skips logging);
otherwise POST: on ok log success and exit 0; on a non-ok response log an
error entry, throw, and the outer catch logs a second error entry and exits 1.
Returns the run trace and the final log file content. -/
def AutomatedTraktSync.autoSync (configOk fetchOk : Bool) (w : Snapshot)
    (env : NetEnv) (file : Option (List LogEntry)) (readOk writeOk : Bool) :
    RunTrace × Option (List LogEntry) :=
  if !configOk then (⟨1, 0, SyncOutcome.fatal, ⟨[], []⟩⟩, file)
  else if !fetchOk then
    (⟨1, 0, SyncOutcome.fatal, ⟨[], []⟩⟩,
     AutomatedTraktSync.logSyncResult file readOk writeOk
       ⟨"error", some "fetch failed"⟩)
  else
    match (traktRequest env.refreshOk1 env.settings1 env.settings2).result with
    | Except.error _ =>
      (⟨1, 0, SyncOutcome.fatal, ⟨[], []⟩⟩,
       AutomatedTraktSync.logSyncResult file readOk writeOk
         ⟨"error", some "Failed to refresh Trakt token"⟩)
    | Except.ok probe =>
      if !probe.ok then
        (⟨1, 0, SyncOutcome.fatal, ⟨[], []⟩⟩,
         AutomatedTraktSync.logSyncResult file readOk writeOk
           ⟨"error", some "Trakt connection test failed"⟩)
      else
        let payload := AutomatedTraktSync.normalize w
        if payload.movies.length = 0 && payload.shows.length = 0 then
          (⟨0, 0, SyncOutcome.nothingToSync, payload⟩, file)
        else
          let t := traktRequest env.refreshOk2 env.history1 env.history2
          match t.result with
          | Except.error _ =>
            (⟨1, t.fetchCalls, SyncOutcome.fatal, payload⟩,
             AutomatedTraktSync.logSyncResult file readOk writeOk
               ⟨"error", some "Failed to refresh Trakt token"⟩)
          | Except.ok r =>
            if r.ok then
              (⟨0, t.fetchCalls, SyncOutcome.success, payload⟩,
               AutomatedTraktSync.logSyncResult file readOk writeOk
                 ⟨"success", none⟩)
            else
              let afterFirst := AutomatedTraktSync.logSyncResult file readOk
                writeOk ⟨"error", some "submit status"⟩
              (⟨1, t.fetchCalls, SyncOutcome.submitFailed, payload⟩,
               AutomatedTraktSync.logSyncResult afterFirst readOk writeOk
                 ⟨"error", some "Sync failed"⟩)

/-- A timestamp field is well formed when it is either absent or a non-empty
string (the data model's ISO timestamps are never the empty string). -/
def wfTs (t : Option String) : Prop := t ≠ some ""

instance (t : Option String) : Decidable (wfTs t) :=
  inferInstanceAs (Decidable (t ≠ some ""))

/-- The spec's episode-timestamp rule, written from the spec's words:
`episode.last_watched_at ?? show.last_watched_at` — the episode's own
timestamp when present, else the parent's. -/
def specFallback (own parent : Option String) : Option String :=
  match own with
  | some s => some s
  | none => parent

/-- The spec's movie rule, written from the spec's words: keep movies whose
`last_watched_at` is present, emit `{watched_at, ids:{imdb,tmdb}}`. -/
def specProcessMovies (movies : List SMovie) : List TMovie :=
  (movies.filter fun movie => movie.last_watched_at.isSome).map fun movie =>
    ⟨movie.last_watched_at, ⟨movie.movie_ids.imdb, movie.movie_ids.tmdb⟩⟩

/-- Anime entry with two one-episode seasons and no episode-level timestamps. -/
def sampleAnime : SShow :=
  ⟨some "2024-01-01T00:00:00Z", ⟨some "tt1", some 1⟩,
   some [⟨1, some [⟨1, none⟩]⟩, ⟨2, some [⟨2, none⟩]⟩]⟩

/-- A concrete credential store. -/
def sampleCfg : Config := ⟨"cid", "secret", ⟨"old-access", "old-refresh"⟩⟩

/-- A concrete token-endpoint response body. -/
def sampleTokens : TraktTokens := ⟨"new-access", "new-refresh"⟩

/-- Show entry of the spec's fallback example: one season, one episode with
no episode-level timestamp. -/
def c5Entry : SShow :=
  ⟨some "2024-02-02T00:00:00Z", ⟨none, none⟩, some [⟨1, some [⟨1, none⟩]⟩]⟩

/-- A network environment where every call succeeds. -/
def okEnv : NetEnv := ⟨⟨200⟩, ⟨200⟩, true, ⟨200⟩, ⟨200⟩, true⟩

/-- A network environment where the settings probe succeeds but the history
submission fails with a non-401 server error. -/
def submitFailEnv : NetEnv := ⟨⟨200⟩, ⟨200⟩, true, ⟨500⟩, ⟨500⟩, true⟩

/-- A snapshot with no collections at all — everything normalizes to empty. -/
def emptySnapshot : Snapshot := ⟨none, none, none⟩

/-- A snapshot with one watched movie (the spec's movie example). -/
def movieSnapshot : Snapshot :=
  ⟨some [⟨some "2024-01-01T00:00:00Z", ⟨some "tt1", some 1⟩⟩], none, none⟩

/-- On well-formed timestamps, JS truthiness coincides with presence. -/
theorem truthy_eq_isSome (t : Option String) (h : wfTs t) : truthy t = t.isSome := by
  cases t with
  | none => rfl
  | some s =>
    have hs : s ≠ "" := fun hc => h (by rw [hc])
    simp [truthy, Option.isSome, bne_iff_ne, hs]

/-- On well-formed timestamps, the JS `||` fallback computes the spec's
present-else-parent rule. -/
theorem jsOr_eq_specFallback (a b : Option String) (h : wfTs a) :
    jsOr a b = specFallback a b := by
  cases a with
  | none => rfl
  | some s =>
    have hs : s ≠ "" := fun hc => h (by rw [hc])
    simp [jsOr, truthy, specFallback, bne_iff_ne, hs]

/-- C1: the sync-auto.mjs anime folding is NOT the show folding. On an anime
entry with two seasons, the shadowed `season` in the inner `flatMap` gives
every output season the concatenation of all seasons' episodes, while the show
folding (and the sync.mjs anime folding, which is definitionally the show
folding) gives each season its own episodes. -/
theorem spec_c1 :
    AutomatedTraktSync.processAnimeEntry sampleAnime ≠
      ManualSync.processShowEntry sampleAnime ∧
    ManualSync.processShowEntry sampleAnime =
      some ⟨some "2024-01-01T00:00:00Z", ⟨some "tt1", some 1⟩,
        [⟨1, [⟨1, some "2024-01-01T00:00:00Z"⟩]⟩,
         ⟨2, [⟨2, some "2024-01-01T00:00:00Z"⟩]⟩]⟩ ∧
    AutomatedTraktSync.processAnimeEntry sampleAnime =
      some ⟨some "2024-01-01T00:00:00Z", ⟨some "tt1", some 1⟩,
        [⟨1, [⟨1, some "2024-01-01T00:00:00Z"⟩, ⟨2, some "2024-01-01T00:00:00Z"⟩]⟩,
         ⟨2, [⟨1, some "2024-01-01T00:00:00Z"⟩, ⟨2, some "2024-01-01T00:00:00Z"⟩]⟩]⟩ ∧
    ManualSync.processAnimeEntry = ManualSync.processShowEntry := by
  refine ⟨by decide, by decide, by decide, rfl⟩

/-- C2: `traktRequest` attempts at most one token refresh; a 401 on the first
response with a working refresh yields exactly one refresh and exactly one
re-issued request, whose response is returned as-is (so a second 401
propagates without another refresh); a non-401 first response is returned
directly with no refresh. -/
theorem spec_c2 (refreshOk : Bool) (first second : Resp) :
    (traktRequest refreshOk first second).refreshAttempts ≤ 1 ∧
    (first.status = 401 → refreshOk = true →
      traktRequest refreshOk first second = ⟨1, 2, Except.ok second⟩) ∧
    (first.status ≠ 401 →
      traktRequest refreshOk first second = ⟨0, 1, Except.ok first⟩) := by
  unfold traktRequest
  by_cases h1 : first.status = 401 <;> cases refreshOk <;> simp [h1]

/-- C2 witness: a 401 followed by another 401 — one refresh, two fetches, the
second 401 returned uncorrected. -/
theorem spec_c2_witness :
    (traktRequest true ⟨401⟩ ⟨401⟩).refreshAttempts ≤ 1 ∧
    traktRequest true ⟨401⟩ ⟨401⟩ = ⟨1, 2, Except.ok ⟨401⟩⟩ := by
  have h := spec_c2 true ⟨401⟩ ⟨401⟩
  exact ⟨h.1, h.2.1 rfl rfl⟩

/-- C7 counterexample: the GitHub-variant refresher, on a 2xx token response,
replaces the token object but does NOT persist the credentials (the persisted
flag is `false`), contrary to the claim that every refresh persists. -/
theorem spec_c7_counterexample :
    (⟨200⟩ : Resp).ok = true ∧
    (GitHubSync.refreshTraktToken sampleCfg ⟨200⟩ sampleTokens).result =
      Except.ok (⟨"cid", "secret", sampleTokens⟩, false) := by
  exact ⟨rfl, rfl⟩

/-- C7 (amended): every refresher issues exactly one POST to the token
endpoint (no retry of the refresh); on a 2xx response the whole stored token
object is replaced verbatim by the response body, persisted by the manual
refresher but not by the GitHub one; on a non-2xx response both fail with the
thrown refresh error; and a refresh failure inside a run is fatal (exit 1). -/
theorem spec_c7 (cfg : Config) (resp : Resp) (body : TraktTokens) :
    (ManualSync.refreshTraktToken cfg resp body).tokenEndpointCalls = 1 ∧
    (GitHubSync.refreshTraktToken cfg resp body).tokenEndpointCalls = 1 ∧
    (resp.ok = true →
      (ManualSync.refreshTraktToken cfg resp body).result =
        Except.ok (⟨cfg.trakt_client_id, cfg.trakt_client_secret, body⟩, true) ∧
      (GitHubSync.refreshTraktToken cfg resp body).result =
        Except.ok (⟨cfg.trakt_client_id, cfg.trakt_client_secret, body⟩, false)) ∧
    (resp.ok = false →
      (ManualSync.refreshTraktToken cfg resp body).result = Except.error () ∧
      (GitHubSync.refreshTraktToken cfg resp body).result = Except.error ()) ∧
    (∀ (w : Snapshot) (env : NetEnv),
      (traktRequest env.refreshOk1 env.settings1 env.settings2).result =
          Except.error () →
      (ManualSync.sync true true w env).exitCode = 1) := by
  refine ⟨?_, ?_, ?_, ?_, ?_⟩
  · unfold ManualSync.refreshTraktToken
    by_cases h : resp.ok <;> simp [h]
  · unfold GitHubSync.refreshTraktToken
    by_cases h : resp.ok <;> simp [h]
  · intro h
    simp [ManualSync.refreshTraktToken, GitHubSync.refreshTraktToken, h]
  · intro h
    simp [ManualSync.refreshTraktToken, GitHubSync.refreshTraktToken, h]
  · intro w env h
    simp [ManualSync.sync, h]

/-- C7 witness: at a concrete 2xx response the manual refresher returns the
replaced-and-persisted config in one endpoint call. -/
theorem spec_c7_witness :
    (ManualSync.refreshTraktToken sampleCfg ⟨200⟩ sampleTokens).tokenEndpointCalls = 1 ∧
    (ManualSync.refreshTraktToken sampleCfg ⟨200⟩ sampleTokens).result =
      Except.ok (⟨"cid", "secret", sampleTokens⟩, true) := by
  have h := spec_c7 sampleCfg ⟨200⟩ sampleTokens
  exact ⟨h.1, (h.2.2.1 rfl).1⟩

/-- C10: an empty-string `last_watched_at` is treated exactly like an absent
one: such a movie is skipped (and equals the run on the same movie with the
timestamp removed), such a show/anime entry is dropped by every normalizer,
and such an episode falls back to the parent's timestamp. -/
theorem spec_c10 (m : SMovie) (ms : List SMovie) (entry : SShow)
    (episode : SEpisode) (parent : Option String)
    (hm : m.last_watched_at = some "") (he : entry.last_watched_at = some "")
    (hep : episode.last_watched_at = some "") :
    ManualSync.processMovies (some (m :: ms)) = ManualSync.processMovies (some ms) ∧
    ManualSync.processMovies (some (m :: ms)) =
      ManualSync.processMovies (some (⟨none, m.movie_ids⟩ :: ms)) ∧
    ManualSync.processShowEntry entry = none ∧
    ManualSync.processAnimeEntry entry = none ∧
    AutomatedTraktSync.processAnimeEntry entry = none ∧
    ManualSync.mapEpisode parent episode = ⟨episode.number, parent⟩ ∧
    ManualSync.mapEpisode parent episode =
      ManualSync.mapEpisode parent ⟨episode.number, none⟩ := by
  refine ⟨?_, ?_, ?_, ?_, ?_, ?_, ?_⟩
  · simp [ManualSync.processMovies, List.filterMap_cons, hm, truthy]
  · simp [ManualSync.processMovies, List.filterMap_cons, hm, truthy]
  · simp [ManualSync.processShowEntry, he, truthy]
  · simp [ManualSync.processAnimeEntry, he, truthy]
  · simp [AutomatedTraktSync.processAnimeEntry, he, truthy]
  · simp [ManualSync.mapEpisode, jsOr, hep, truthy]
  · simp [ManualSync.mapEpisode, jsOr, hep, truthy]

/-- C10 witness: concrete empty-string timestamps behave as absent. -/
theorem spec_c10_witness :
    ManualSync.processMovies (some [⟨some "", ⟨some "tt2", some 2⟩⟩]) =
      ManualSync.processMovies (some []) ∧
    ManualSync.processShowEntry ⟨some "", ⟨none, none⟩, none⟩ = none ∧
    ManualSync.mapEpisode (some "2024-01-01T00:00:00Z") ⟨1, some ""⟩ =
      ⟨1, some "2024-01-01T00:00:00Z"⟩ := by
  have h := spec_c10 ⟨some "", ⟨some "tt2", some 2⟩⟩ []
    ⟨some "", ⟨none, none⟩, none⟩ ⟨1, some ""⟩ (some "2024-01-01T00:00:00Z")
    rfl rfl rfl
  exact ⟨h.1, h.2.2.1, h.2.2.2.2.2.1⟩

/-- A truthy optional string is present. -/
theorem isSome_of_truthy (t : Option String) (h : truthy t = true) :
    t.isSome = true := by
  cases t with
  | none => exact absurd h (by simp [truthy])
  | some s => rfl

/-- On well-formed movie timestamps the embedded movie processing computes
the spec's filter-present-then-emit rule. -/
theorem processMovies_eq_spec (movies : List SMovie)
    (hwf : ∀ m ∈ movies, wfTs m.last_watched_at) :
    ManualSync.processMovies (some movies) = specProcessMovies movies := by
  induction movies with
  | nil => rfl
  | cons m ms ih =>
    have hm : truthy m.last_watched_at = m.last_watched_at.isSome :=
      truthy_eq_isSome _ (hwf m (by simp))
    have ih2 := ih fun x hx => hwf x (by simp [hx])
    cases hs : m.last_watched_at.isSome with
    | false =>
      simpa [ManualSync.processMovies, specProcessMovies, List.filterMap_cons,
        List.filter_cons, hm, hs] using ih2
    | true =>
      simpa [ManualSync.processMovies, specProcessMovies, List.filterMap_cons,
        List.filter_cons, hm, hs] using ih2

/-- C8: movie normalization — with well-formed timestamps it equals the
spec's rule (skip absent `last_watched_at`, emit `{watched_at, ids}`), the
output is never longer than the input, and every emitted movie traces to an
input entry with a present timestamp. -/
theorem spec_c8 (movies : List SMovie)
    (hwf : ∀ m ∈ movies, wfTs m.last_watched_at) :
    ManualSync.processMovies (some movies) = specProcessMovies movies ∧
    (ManualSync.processMovies (some movies)).length ≤ movies.length ∧
    (∀ tm ∈ ManualSync.processMovies (some movies), ∃ m ∈ movies,
      m.last_watched_at.isSome = true ∧
      tm = ⟨m.last_watched_at, ⟨m.movie_ids.imdb, m.movie_ids.tmdb⟩⟩) := by
  refine ⟨processMovies_eq_spec movies hwf, ?_, ?_⟩
  · rw [processMovies_eq_spec movies hwf]
    simp only [specProcessMovies, List.length_map]
    exact List.length_filter_le _ _
  · intro tm htm
    simp only [ManualSync.processMovies, Option.getD_some] at htm
    obtain ⟨m, hmem, hf⟩ := List.mem_filterMap.mp htm
    by_cases ht : truthy m.last_watched_at
    · rw [if_pos ht] at hf
      exact ⟨m, hmem, isSome_of_truthy _ ht, (Option.some_inj.mp hf).symm⟩
    · rw [if_neg ht] at hf
      exact absurd hf (by simp)

/-- C8 witness: the spec's movie example snapshot. -/
theorem spec_c8_witness :
    ManualSync.processMovies
        (some [⟨some "2024-01-01T00:00:00Z", ⟨some "tt1", some 1⟩⟩]) =
      specProcessMovies [⟨some "2024-01-01T00:00:00Z", ⟨some "tt1", some 1⟩⟩] ∧
    (ManualSync.processMovies
        (some [⟨some "2024-01-01T00:00:00Z", ⟨some "tt1", some 1⟩⟩])).length ≤ 1 := by
  have h := spec_c8 [⟨some "2024-01-01T00:00:00Z", ⟨some "tt1", some 1⟩⟩]
    (by decide)
  exact ⟨h.1, h.2.1⟩

/-- Inversion of show processing: a produced entry has a truthy timestamp,
carries the folded seasons, and at least one season survived. -/
theorem processShowEntry_eq_some (entry : SShow) (tshow : TShow)
    (h : ManualSync.processShowEntry entry = some tshow) :
    truthy entry.last_watched_at = true ∧
    tshow = ⟨entry.last_watched_at, ⟨entry.show_ids.imdb, entry.show_ids.tmdb⟩,
      ManualSync.foldSeasons entry.last_watched_at entry.seasons⟩ ∧
    (ManualSync.foldSeasons entry.last_watched_at entry.seasons).length > 0 := by
  unfold ManualSync.processShowEntry at h
  by_cases h1 : truthy entry.last_watched_at
  · rw [if_pos h1] at h
    by_cases h2 :
        (ManualSync.foldSeasons entry.last_watched_at entry.seasons).length > 0
    · rw [if_pos h2] at h
      exact ⟨h1, (Option.some_inj.mp h).symm, h2⟩
    · rw [if_neg h2] at h
      exact absurd h (by simp)
  · rw [if_neg h1] at h
    exact absurd h (by simp)

/-- Inversion of the sync-auto anime processing. -/
theorem autoAnimeEntry_eq_some (entry : SShow) (tshow : TShow)
    (h : AutomatedTraktSync.processAnimeEntry entry = some tshow) :
    truthy entry.last_watched_at = true ∧
    tshow = ⟨entry.last_watched_at, ⟨entry.show_ids.imdb, entry.show_ids.tmdb⟩,
      AutomatedTraktSync.animeSeasons entry⟩ ∧
    (AutomatedTraktSync.animeSeasons entry).length > 0 := by
  unfold AutomatedTraktSync.processAnimeEntry at h
  by_cases h1 : truthy entry.last_watched_at
  · rw [if_pos h1] at h
    by_cases h2 : (AutomatedTraktSync.animeSeasons entry).length > 0
    · rw [if_pos h2] at h
      exact ⟨h1, (Option.some_inj.mp h).symm, h2⟩
    · rw [if_neg h2] at h
      exact absurd h (by simp)
  · rw [if_neg h1] at h
    exact absurd h (by simp)

/-- Every episode of every season produced by the show folding is the image
of an input episode of some input season under `mapEpisode`. -/
theorem foldSeasons_mem (fb : Option String) (seasons : Option (List SSeason))
    (tseason : TSeason) (tep : TEpisode)
    (h : tseason ∈ ManualSync.foldSeasons fb seasons)
    (he : tep ∈ tseason.episodes) :
    ∃ season ∈ seasons.getD [], ∃ episode ∈ season.episodes.getD [],
      tep = ManualSync.mapEpisode fb episode := by
  unfold ManualSync.foldSeasons at h
  obtain ⟨hmm, -⟩ := List.mem_filter.mp h
  obtain ⟨season, hs, rfl⟩ := List.mem_map.mp hmm
  unfold ManualSync.mapSeason at he
  simp only [List.filter_true] at he
  obtain ⟨episode, hee, rfl⟩ := List.mem_map.mp he
  exact ⟨season, hs, episode, hee, rfl⟩

/-- Every episode of every season produced by the sync-auto anime folding is
still the image of a real input episode (of some — possibly other — season)
under the same episode mapping. -/
theorem animeSeasons_mem (entry : SShow) (tseason : TSeason) (tep : TEpisode)
    (h : tseason ∈ AutomatedTraktSync.animeSeasons entry)
    (he : tep ∈ tseason.episodes) :
    ∃ season ∈ entry.seasons.getD [], ∃ episode ∈ season.episodes.getD [],
      tep = ⟨episode.number, jsOr episode.last_watched_at entry.last_watched_at⟩ := by
  unfold AutomatedTraktSync.animeSeasons at h
  cases hss : entry.seasons with
  | none => rw [hss] at h; exact absurd h (by simp)
  | some ss =>
    rw [hss] at h
    obtain ⟨hmm, -⟩ := List.mem_filter.mp h
    obtain ⟨season, hs, rfl⟩ := List.mem_map.mp hmm
    simp only at he
    obtain ⟨season2, hs2, he2⟩ := List.mem_flatMap.mp he
    obtain ⟨episode, hee, rfl⟩ := List.mem_map.mp he2
    exact ⟨season2, hs2, episode, hee, rfl⟩

/-- C5: for any show or anime entry folded into the payload (by the manual
show rule, the manual anime rule, or the sync-auto anime rule), every emitted
episode's `watched_at` is the spec's fallback — the episode's own timestamp
when present, else the parent entry's top-level timestamp — of a real input
episode whose number it carries. -/
theorem spec_c5 (entry : SShow) (tshow : TShow) (tseason : TSeason)
    (tep : TEpisode)
    (hwf : ∀ season ∈ entry.seasons.getD [],
      ∀ episode ∈ season.episodes.getD [], wfTs episode.last_watched_at)
    (hout : ManualSync.processShowEntry entry = some tshow ∨
            ManualSync.processAnimeEntry entry = some tshow ∨
            AutomatedTraktSync.processAnimeEntry entry = some tshow)
    (hs : tseason ∈ tshow.seasons) (he : tep ∈ tseason.episodes) :
    ∃ season ∈ entry.seasons.getD [], ∃ episode ∈ season.episodes.getD [],
      tep.number = episode.number ∧
      tep.watched_at = specFallback episode.last_watched_at entry.last_watched_at := by
  have hmanual : ManualSync.processShowEntry entry = some tshow →
      ∃ season ∈ entry.seasons.getD [], ∃ episode ∈ season.episodes.getD [],
        tep.number = episode.number ∧
        tep.watched_at =
          specFallback episode.last_watched_at entry.last_watched_at := by
    intro h
    obtain ⟨-, hts, -⟩ := processShowEntry_eq_some entry tshow h
    rw [hts] at hs
    obtain ⟨season, hsm, episode, hem, rfl⟩ :=
      foldSeasons_mem entry.last_watched_at entry.seasons tseason tep hs he
    exact ⟨season, hsm, episode, hem, rfl,
      jsOr_eq_specFallback _ _ (hwf season hsm episode hem)⟩
  rcases hout with h | h | h
  · exact hmanual h
  · exact hmanual h
  · obtain ⟨-, hts, -⟩ := autoAnimeEntry_eq_some entry tshow h
    rw [hts] at hs
    obtain ⟨season, hsm, episode, hem, rfl⟩ :=
      animeSeasons_mem entry tseason tep hs he
    exact ⟨season, hsm, episode, hem, rfl,
      jsOr_eq_specFallback _ _ (hwf season hsm episode hem)⟩

/-- C5 witness: the spec's example — the lone episode inherits the show-level
timestamp `2024-02-02T00:00:00Z`. -/
theorem spec_c5_witness :
    ∃ season ∈ c5Entry.seasons.getD [], ∃ episode ∈ season.episodes.getD [],
      (⟨1, some "2024-02-02T00:00:00Z"⟩ : TEpisode).number = episode.number ∧
      (⟨1, some "2024-02-02T00:00:00Z"⟩ : TEpisode).watched_at =
        specFallback episode.last_watched_at c5Entry.last_watched_at := by
  exact spec_c5 c5Entry
    ⟨some "2024-02-02T00:00:00Z", ⟨none, none⟩,
      [⟨1, [⟨1, some "2024-02-02T00:00:00Z"⟩]⟩]⟩
    ⟨1, [⟨1, some "2024-02-02T00:00:00Z"⟩]⟩
    ⟨1, some "2024-02-02T00:00:00Z"⟩
    (by decide) (Or.inl (by decide)) (by decide) (by decide)

/-- C6: every season emitted for a show or anime entry (manual normalizer)
has a non-empty episode list, and an entry all of whose seasons have empty
(or missing) episode collections — even one with a present top-level
timestamp — is dropped entirely, producing no output and no error. -/
theorem spec_c6 (entry : SShow) :
    (∀ tshow tseason, (ManualSync.processShowEntry entry = some tshow ∨
        ManualSync.processAnimeEntry entry = some tshow) →
      tseason ∈ tshow.seasons → tseason.episodes ≠ []) ∧
    ((∀ season ∈ entry.seasons.getD [], season.episodes.getD [] = []) →
      ManualSync.processShowEntry entry = none ∧
      ManualSync.processAnimeEntry entry = none) := by
  constructor
  · intro tshow tseason hout hmem
    have hshow : ManualSync.processShowEntry entry = some tshow := by
      rcases hout with h | h
      · exact h
      · exact h
    obtain ⟨-, hts, -⟩ := processShowEntry_eq_some entry tshow hshow
    rw [hts] at hmem
    unfold ManualSync.foldSeasons at hmem
    obtain ⟨-, hp⟩ := List.mem_filter.mp hmem
    intro hnil
    rw [hnil] at hp
    simp at hp
  · intro hall
    have hfold :
        ManualSync.foldSeasons entry.last_watched_at entry.seasons = [] := by
      unfold ManualSync.foldSeasons
      rw [List.filter_eq_nil_iff]
      intro ts hts
      obtain ⟨season, hmem, rfl⟩ := List.mem_map.mp hts
      simp [ManualSync.mapSeason, hall season hmem]
    constructor
    · unfold ManualSync.processShowEntry
      by_cases h1 : truthy entry.last_watched_at <;> simp [h1, hfold]
    · unfold ManualSync.processAnimeEntry
      by_cases h1 : truthy entry.last_watched_at <;> simp [h1, hfold]

/-- C6 witness: an entry with a present timestamp, one season whose episode
list is present but empty and one with no episode list, is dropped. -/
theorem spec_c6_witness :
    ManualSync.processShowEntry
        ⟨some "2024-01-01T00:00:00Z", ⟨none, none⟩,
          some [⟨1, some []⟩, ⟨2, none⟩]⟩ = none ∧
    ManualSync.processAnimeEntry
        ⟨some "2024-01-01T00:00:00Z", ⟨none, none⟩,
          some [⟨1, some []⟩, ⟨2, none⟩]⟩ = none := by
  exact (spec_c6 ⟨some "2024-01-01T00:00:00Z", ⟨none, none⟩,
    some [⟨1, some []⟩, ⟨2, none⟩]⟩).2 (by decide)

/-- C3 counterexample: the manual sync has no no-op short-circuit — on a
snapshot normalizing to an empty payload it still issues one POST to the
history endpoint and never reports a "nothing to sync" outcome. -/
theorem spec_c3_counterexample :
    (ManualSync.sync true true emptySnapshot okEnv).payload = ⟨[], []⟩ ∧
    (ManualSync.sync true true emptySnapshot okEnv).historyCalls = 1 ∧
    (ManualSync.sync true true emptySnapshot okEnv).outcome ≠
      SyncOutcome.nothingToSync := by
  decide

/-- C3 (amended): in the automated sync and in the GitHub sync, once the
connectivity probe passes, an empty normalized payload short-circuits the
run: outcome "nothing to sync", exit code 0, zero history-endpoint calls
(and, for the automated sync, the log untouched). -/
theorem spec_c3 (w : Snapshot) (env : NetEnv) (file : Option (List LogEntry))
    (readOk writeOk : Bool) (probe : Resp)
    (hset : (traktRequest env.refreshOk1 env.settings1 env.settings2).result =
      Except.ok probe)
    (hok : probe.ok = true)
    (hm : (AutomatedTraktSync.normalize w).movies = [])
    (hs : (AutomatedTraktSync.normalize w).shows = [])
    (hgm : (GitHubSync.normalize w).movies = [])
    (hgs : (GitHubSync.normalize w).shows = []) :
    AutomatedTraktSync.autoSync true true w env file readOk writeOk =
      (⟨0, 0, SyncOutcome.nothingToSync, AutomatedTraktSync.normalize w⟩, file) ∧
    GitHubSync.sync true w env =
      ⟨0, 0, SyncOutcome.nothingToSync, GitHubSync.normalize w⟩ := by
  constructor
  · simp [AutomatedTraktSync.autoSync, hset, hok, hm, hs]
  · simp [GitHubSync.sync, hset, hok, hgm, hgs]

/-- C3 witness: concrete empty snapshot in an all-success environment, for
both the automated and the GitHub sync. -/
theorem spec_c3_witness :
    AutomatedTraktSync.autoSync true true emptySnapshot okEnv none true true =
      (⟨0, 0, SyncOutcome.nothingToSync, AutomatedTraktSync.normalize emptySnapshot⟩,
       none) ∧
    GitHubSync.sync true emptySnapshot okEnv =
      ⟨0, 0, SyncOutcome.nothingToSync, GitHubSync.normalize emptySnapshot⟩ := by
  exact spec_c3 emptySnapshot okEnv none true true ⟨200⟩ rfl rfl rfl rfl rfl rfl

/-- C4 counterexample: a manual-sync run whose history submission returns a
500 reports a submit failure yet exits with code 0, contradicting "non-zero
on every unrecovered failure". -/
theorem spec_c4_counterexample :
    (ManualSync.sync true true movieSnapshot submitFailEnv).outcome =
      SyncOutcome.submitFailed ∧
    (ManualSync.sync true true movieSnapshot submitFailEnv).exitCode = 0 := by
  decide

/-- C4 (amended): the automated sync exits 0 exactly when the run succeeds or
is a no-op (all unrecovered failures — missing config, fetch failure, refresh
failure, submit failure — exit non-zero); the manual sync exits 0 exactly
when the run succeeds OR only the submission failed, i.e. it exits non-zero
on missing config, fetch, refresh and connectivity failures but exits 0 after
logging a failed submission. -/
theorem spec_c4 (configOk fetchOk : Bool) (w : Snapshot) (env : NetEnv)
    (file : Option (List LogEntry)) (readOk writeOk : Bool) :
    ((AutomatedTraktSync.autoSync configOk fetchOk w env file readOk
        writeOk).fst.exitCode = 0 ↔
      ((AutomatedTraktSync.autoSync configOk fetchOk w env file readOk
          writeOk).fst.outcome = SyncOutcome.success ∨
        (AutomatedTraktSync.autoSync configOk fetchOk w env file readOk
          writeOk).fst.outcome = SyncOutcome.nothingToSync)) ∧
    ((ManualSync.sync configOk fetchOk w env).exitCode = 0 ↔
      ((ManualSync.sync configOk fetchOk w env).outcome = SyncOutcome.success ∨
        (ManualSync.sync configOk fetchOk w env).outcome =
          SyncOutcome.submitFailed)) := by
  constructor
  · simp only [AutomatedTraktSync.autoSync]
    (repeat' split) <;> simp
  · simp only [ManualSync.sync]
    (repeat' split) <;> simp

/-- C9: the result logger appends newest-last (the written log always ends
with the new entry), truncates to the most recent 100 entries (the written
log is a suffix of old-log-plus-entry of length `min (n+1) 100`), on a
successfully read existing log writes back exactly the appended-and-truncated
log (a failed write leaving the file as it was), treats a corrupt or missing
log file as empty, and swallows read and write failures — the automated run's
trace (exit code, outcome, calls, payload) is identical whatever the log file
contains and whether reading or writing it fails. -/
theorem spec_c9 :
    (∀ (logs : List LogEntry) (e : LogEntry),
      (boundedAppend logs e).getLast? = some e) ∧
    (∀ (logs : List LogEntry) (e : LogEntry),
      (boundedAppend logs e).length = min (logs.length + 1) 100) ∧
    (∀ (logs : List LogEntry) (e : LogEntry),
      (boundedAppend logs e) <:+ (logs ++ [e])) ∧
    (∀ (l : List LogEntry) (writeOk : Bool) (e : LogEntry),
      AutomatedTraktSync.logSyncResult (some l) true writeOk e =
        if writeOk then some (boundedAppend l e) else some l) ∧
    (∀ (file : Option (List LogEntry)) (writeOk : Bool) (e : LogEntry),
      AutomatedTraktSync.logSyncResult file false writeOk e =
        if writeOk then some (boundedAppend [] e) else file) ∧
    (∀ (readOk writeOk : Bool) (e : LogEntry),
      AutomatedTraktSync.logSyncResult none readOk writeOk e =
        if writeOk then some (boundedAppend [] e) else none) ∧
    (∀ (configOk fetchOk : Bool) (w : Snapshot) (env : NetEnv)
      (file file' : Option (List LogEntry)) (readOk writeOk readOk' writeOk' : Bool),
      (AutomatedTraktSync.autoSync configOk fetchOk w env file readOk
        writeOk).fst =
        (AutomatedTraktSync.autoSync configOk fetchOk w env file' readOk'
          writeOk').fst) := by
  refine ⟨?_, ?_, ?_, ?_, ?_, ?_, ?_⟩
  · intro logs e
    unfold boundedAppend
    by_cases h : (logs ++ [e]).length > 100
    · rw [if_pos h]
      have hk : (logs ++ [e]).length - 100 ≤ logs.length := by
        simp only [List.length_append, List.length_singleton] at h ⊢
        omega
      rw [List.drop_append_of_le_length hk]
      exact List.getLast?_concat _
    · rw [if_neg h]
      exact List.getLast?_concat _
  · intro logs e
    unfold boundedAppend
    by_cases h : (logs ++ [e]).length > 100
    · rw [if_pos h, List.length_drop]
      simp only [List.length_append, List.length_singleton] at h ⊢
      omega
    · rw [if_neg h]
      simp only [List.length_append, List.length_singleton] at h ⊢
      omega
  · intro logs e
    unfold boundedAppend
    by_cases h : (logs ++ [e]).length > 100
    · rw [if_pos h]
      exact List.drop_suffix _ _
    · rw [if_neg h]
  · intro l writeOk e
    cases writeOk <;> rfl
  · intro file writeOk e
    cases file <;> cases writeOk <;> rfl
  · intro readOk writeOk e
    cases readOk <;> cases writeOk <;> rfl
  · intro configOk fetchOk w env file file' readOk writeOk readOk' writeOk'
    simp only [AutomatedTraktSync.autoSync]
    (repeat' split) <;> rfl
